import Mathlib

/-!
Verification of the compound-interest projection engine of
`smart-calculator` (`src/calculator.py`, class `CompoundInterestCalculator`).

The engine is embedded shallowly over `ℚ` (Python `float`/`int` arithmetic
is modelled by exact rational arithmetic; the claims about exact equalities
are stated "within floating-point tolerance" in the spec, which the exact
rational model captures).  Python's `ZeroDivisionError` is modelled by an
`Except String` result for `calculate`, with one error string per division
site, checked in the order Python would reach them.  The CAGR entry of the
summary is `(balance_nominal / principal) ** (1 / years) - 1`, a
transcendental real power; no claim depends on its numeric value, so the
summary carries the exact rational base and exponent of that power
(`CagrExpr`), while the two `ZeroDivisionError` cases of its evaluation
(`principal = 0`, `years = 0`) are reflected in `calculate`'s error result.
-/

set_option autoImplicit false

namespace SmartCalculator

/-- The `params` dict handed to `CompoundInterestCalculator.__init__`
(`src/calculator.py` lines 77-87 / 231-241).  Rate fields hold percent
values exactly as the dict does; `__init__` divides them by 100.  The
`currency` entry is a display label never used in arithmetic and is
omitted. -/
structure Params where
  initial_investment : ℚ
  monthly_contribution : ℚ
  yearly_contribution : ℚ
  interest_rate : ℚ
  investment_period : ℕ
  compounding_freq : ℕ
  inflation_rate : ℚ
  tax_rate : ℚ
deriving DecidableEq, Repr

/-- `self.interest_rate = params['interest_rate'] / 100` (line 82). -/
def interestRate (p : Params) : ℚ := p.interest_rate / 100

/-- `self.inflation_rate = params['inflation_rate'] / 100` (line 85). -/
def inflationRate (p : Params) : ℚ := p.inflation_rate / 100

/-- `self.tax_rate = params['tax_rate'] / 100` (line 86). -/
def taxRate (p : Params) : ℚ := p.tax_rate / 100

/-- `period_rate = self.interest_rate / self.compounding_freq` (line 91). -/
def periodRate (p : Params) : ℚ := interestRate p / (p.compounding_freq : ℚ)

/-- `yearly_contributions = self.yearly_contribution + self.monthly_contribution * 12`
(line 100); the same value every year. -/
def yearlyContributions (p : Params) : ℚ :=
  p.yearly_contribution + p.monthly_contribution * 12

/-- `period_contribution = yearly_contributions / self.compounding_freq` (line 104). -/
def periodContribution (p : Params) : ℚ :=
  yearlyContributions p / (p.compounding_freq : ℚ)

/-- The mutable accumulators of `calculate` (lines 92-97): the running
nominal balance and the three running totals. -/
structure RunState where
  balance_nominal : ℚ
  total_contributions : ℚ
  total_interest : ℚ
  total_taxes : ℚ
deriving DecidableEq, Repr

/-- One iteration of the inner sub-period loop (lines 103-112):
add the period contribution to the balance and to the contributions
total, accrue interest on the post-contribution balance, subtract the
tax from the interest before adding it to the balance, and accumulate
interest and tax into their running totals. -/
def periodStep (p : Params) (s : RunState) : RunState :=
  let balance1 := s.balance_nominal + periodContribution p
  let interest := balance1 * periodRate p
  let tax := interest * taxRate p
  { balance_nominal := balance1 + (interest - tax)
    total_contributions := s.total_contributions + periodContribution p
    total_interest := s.total_interest + interest
    total_taxes := s.total_taxes + tax }

/-- One row of the `results` list (lines 117-126). -/
structure YearRow where
  year : ℕ
  start_balance : ℚ
  contributions : ℚ
  interest_earned : ℚ
  taxes_paid : ℚ
  end_balance_nominal : ℚ
  end_balance_real : ℚ
  inflation_factor : ℚ
deriving DecidableEq, Repr

/-- The accumulators before the year loop starts (lines 92-97):
both balances start at the principal, `total_contributions` starts at the
principal, interest and taxes at zero. -/
def initState (p : Params) : RunState :=
  { balance_nominal := p.initial_investment
    total_contributions := p.initial_investment
    total_interest := 0
    total_taxes := 0 }

/-- One iteration of the outer year loop (lines 99-126) for the given
1-indexed `year`: record the start balance, run `compounding_freq`
sub-period steps, compute the inflation factor and the real balance, and
append the row.  The `Interest Earned` and `Taxes Paid` fields are the
running totals minus the sum of the same field over the rows emitted so
far (the accumulate-then-diff pattern of lines 121-122). -/
def yearStep (p : Params) (year : ℕ) (s : RunState) (rows : List YearRow) :
    RunState × List YearRow :=
  let s1 := (periodStep p)^[p.compounding_freq] s
  let infl := (1 + inflationRate p) ^ year
  let row : YearRow :=
    { year := year
      start_balance := s.balance_nominal
      contributions := yearlyContributions p
      interest_earned := s1.total_interest - (rows.map YearRow.interest_earned).sum
      taxes_paid := s1.total_taxes - (rows.map YearRow.taxes_paid).sum
      end_balance_nominal := s1.balance_nominal
      end_balance_real := s1.balance_nominal / infl
      inflation_factor := infl }
  (s1, rows ++ [row])

/-- The year loop run for years `1..n`: the final accumulator state and
the emitted rows, in emission order. -/
def runYears (p : Params) : ℕ → RunState × List YearRow
  | 0 => (initState p, [])
  | n + 1 =>
    let prev := runYears p n
    yearStep p (n + 1) prev.1 prev.2

/-- The CAGR summary entry
`(balance_nominal / self.principal) ** (1 / self.years) - 1` (line 135).
The float power with a fractional exponent is transcendental; the summary
keeps its exact rational base and exponent.  The division-by-zero failures
of this expression are surfaced by `calculate`. -/
structure CagrExpr where
  base : ℚ
  exponent : ℚ
deriving DecidableEq, Repr

/-- The `summary` dict (lines 129-136). -/
structure Summary where
  final_amount_nominal : ℚ
  final_amount_real : ℚ
  total_contributions : ℚ
  total_interest : ℚ
  total_taxes : ℚ
  cagr : CagrExpr
deriving DecidableEq, Repr

/-- Build the summary from the final accumulator state.  `Final Amount
(Real)` is the last value of the `balance_real` variable, i.e. the final
nominal balance divided by `(1 + inflation_rate) ** years` (for zero years
it is the untouched initial value, which the same formula yields since the
factor is then `1`). -/
def mkSummary (p : Params) (s : RunState) : Summary :=
  { final_amount_nominal := s.balance_nominal
    final_amount_real := s.balance_nominal / (1 + inflationRate p) ^ p.investment_period
    total_contributions := s.total_contributions
    total_interest := s.total_interest
    total_taxes := s.total_taxes
    cagr := { base := s.balance_nominal / p.initial_investment
              exponent := 1 / (p.investment_period : ℚ) } }

/-- `CompoundInterestCalculator.calculate` (lines 89-138), with Python's
`ZeroDivisionError` sites made explicit, in the order execution reaches
them: `period_rate = interest_rate / compounding_freq` (line 91) raises
when `compounding_freq = 0`; `balance_real = balance_nominal /
inflation_factor` (line 115) raises in year 1 when `1 + inflation_rate/100
= 0` (the factor is zero exactly then, and only if at least one year
runs); in the CAGR expression (line 135) `balance_nominal / principal`
raises when the principal is zero, and then `1 / years` raises when the
period is zero.  On success the result is the emitted rows and the
summary. -/
def calculate (p : Params) : Except String (List YearRow × Summary) :=
  if p.compounding_freq = 0 then
    Except.error "ZeroDivisionError: interest_rate / compounding_freq"
  else if 0 < p.investment_period ∧ 1 + inflationRate p = 0 then
    Except.error "ZeroDivisionError: balance_nominal / inflation_factor"
  else
    let r := runYears p p.investment_period
    if p.initial_investment = 0 then
      Except.error "ZeroDivisionError: balance_nominal / principal"
    else if p.investment_period = 0 then
      Except.error "ZeroDivisionError: 1 / years"
    else
      Except.ok (r.2, mkSummary p r.1)

/-- The spec's §4.1 preconditions on a parameter set: `investment_period ≥ 1`,
`compounding_freq ∈ \x7b1, 4, 12\x7d`, and every amount and rate field
non-negative (rate fields are percent values here, matching the dict). -/
def ValidParams (p : Params) : Prop :=
  1 ≤ p.investment_period ∧
  (p.compounding_freq = 1 ∨ p.compounding_freq = 4 ∨ p.compounding_freq = 12) ∧
  0 ≤ p.initial_investment ∧ 0 ≤ p.monthly_contribution ∧
  0 ≤ p.yearly_contribution ∧ 0 ≤ p.interest_rate ∧
  0 ≤ p.inflation_rate ∧ 0 ≤ p.tax_rate

instance (p : Params) : Decidable (ValidParams p) := by
  unfold ValidParams; infer_instance

/-! ### Closed-form description of the run -/

/-- The nominal balance after `n` full years of the loop. -/
def balanceAfter (p : Params) (n : ℕ) : ℚ := (runYears p n).1.balance_nominal

/-- The running `total_contributions` accumulator after `n` full years. -/
def totalContribAfter (p : Params) (n : ℕ) : ℚ := (runYears p n).1.total_contributions

/-- The running `total_interest` accumulator after `n` full years. -/
def totalInterestAfter (p : Params) (n : ℕ) : ℚ := (runYears p n).1.total_interest

/-- The running `total_taxes` accumulator after `n` full years. -/
def totalTaxesAfter (p : Params) (n : ℕ) : ℚ := (runYears p n).1.total_taxes

/-- Closed-form description of the row emitted for year `i + 1`
(`i`-th row, 0-indexed): its interest and tax attributions are the direct
per-year increments of the running totals. -/
def rowSpec (p : Params) (i : ℕ) : YearRow :=
  { year := i + 1
    start_balance := balanceAfter p i
    contributions := yearlyContributions p
    interest_earned := totalInterestAfter p (i + 1) - totalInterestAfter p i
    taxes_paid := totalTaxesAfter p (i + 1) - totalTaxesAfter p i
    end_balance_nominal := balanceAfter p (i + 1)
    end_balance_real := balanceAfter p (i + 1) / (1 + inflationRate p) ^ (i + 1)
    inflation_factor := (1 + inflationRate p) ^ (i + 1) }

theorem runYears_state_succ (p : Params) (n : ℕ) :
    (runYears p (n + 1)).1 = (periodStep p)^[p.compounding_freq] (runYears p n).1 := rfl

theorem totalInterestAfter_zero (p : Params) : totalInterestAfter p 0 = 0 := rfl

theorem totalTaxesAfter_zero (p : Params) : totalTaxesAfter p 0 = 0 := rfl

theorem sum_rowSpec_interest (p : Params) :
    ∀ n, (((List.range n).map (rowSpec p)).map YearRow.interest_earned).sum =
      totalInterestAfter p n
  | 0 => by simp [totalInterestAfter, runYears, initState]
  | n + 1 => by
    rw [List.range_succ, List.map_append, List.map_append, List.sum_append,
      sum_rowSpec_interest p n]
    simp [rowSpec]

theorem sum_rowSpec_taxes (p : Params) :
    ∀ n, (((List.range n).map (rowSpec p)).map YearRow.taxes_paid).sum =
      totalTaxesAfter p n
  | 0 => by simp [totalTaxesAfter, runYears, initState]
  | n + 1 => by
    rw [List.range_succ, List.map_append, List.map_append, List.sum_append,
      sum_rowSpec_taxes p n]
    simp [rowSpec]

/-- The rows emitted by `n` years of the loop are exactly the closed-form
rows for years `1..n`. -/
theorem runYears_rows (p : Params) :
    ∀ n, (runYears p n).2 = (List.range n).map (rowSpec p)
  | 0 => rfl
  | n + 1 => by
    have ih := runYears_rows p n
    show (yearStep p (n + 1) (runYears p n).1 (runYears p n).2).2 = _
    rw [List.range_succ, List.map_append]
    unfold yearStep
    dsimp only
    rw [ih, sum_rowSpec_interest, sum_rowSpec_taxes]
    rfl

/-! ### Inversion and success of `calculate` -/

theorem calculate_eq_ok (p : Params) (hfreq : p.compounding_freq ≠ 0)
    (hinfl : 1 + inflationRate p ≠ 0) (hp0 : p.initial_investment ≠ 0)
    (hper : p.investment_period ≠ 0) :
    calculate p = Except.ok ((runYears p p.investment_period).2,
      mkSummary p (runYears p p.investment_period).1) := by
  unfold calculate
  rw [if_neg hfreq, if_neg (fun h => hinfl h.2)]
  dsimp only
  rw [if_neg hp0, if_neg hper]

theorem calculate_ok_elim (p : Params) (rows : List YearRow) (s : Summary)
    (h : calculate p = Except.ok (rows, s)) :
    p.compounding_freq ≠ 0 ∧ p.initial_investment ≠ 0 ∧ p.investment_period ≠ 0 ∧
    rows = (runYears p p.investment_period).2 ∧
    s = mkSummary p (runYears p p.investment_period).1 := by
  unfold calculate at h
  split_ifs at h with hf hi hp hy
  simp only [Except.ok.injEq, Prod.mk.injEq] at h
  exact ⟨hf, hp, hy, h.1.symm, h.2.symm⟩

theorem validParams_freq_ne_zero (p : Params) (h : ValidParams p) :
    p.compounding_freq ≠ 0 := by
  rcases h.2.1 with h1 | h1 | h1 <;> omega

theorem inflBase_pos (p : Params) (h : 0 ≤ p.inflation_rate) :
    0 < 1 + inflationRate p := by
  unfold inflationRate
  nlinarith

theorem inflBase_ne_zero (p : Params) (h : 0 ≤ p.inflation_rate) :
    1 + inflationRate p ≠ 0 :=
  ne_of_gt (inflBase_pos p h)

theorem validParams_inflBase_pos (p : Params) (h : ValidParams p) :
    0 < 1 + inflationRate p :=
  inflBase_pos p h.2.2.2.2.2.2.1

/-- The error of the CAGR expression at a zero principal: whenever the two
divisions Python reaches first succeed, a zero `initial_investment` makes
`balance_nominal / self.principal` raise. -/
theorem calculate_zero_principal (p : Params) (hf : p.compounding_freq ≠ 0)
    (hinfl : 1 + inflationRate p ≠ 0) (hp : p.initial_investment = 0) :
    calculate p = Except.error "ZeroDivisionError: balance_nominal / principal" := by
  unfold calculate
  rw [if_neg hf, if_neg (fun h => hinfl h.2)]
  dsimp only
  rw [if_pos hp]

/-! ### Contribution accounting -/

theorem periodStep_total_contributions (p : Params) (s : RunState) :
    (periodStep p s).total_contributions =
      s.total_contributions + periodContribution p := rfl

theorem periodStep_balance_eq (p : Params) (s : RunState) :
    (periodStep p s).balance_nominal =
      s.balance_nominal + periodContribution p +
        ((s.balance_nominal + periodContribution p) * periodRate p -
          (s.balance_nominal + periodContribution p) * periodRate p * taxRate p) := rfl

theorem iterate_total_contributions (p : Params) (k : ℕ) (s : RunState) :
    ((periodStep p)^[k] s).total_contributions =
      s.total_contributions + k * periodContribution p := by
  induction k with
  | zero => simp
  | succ k ih =>
    rw [Function.iterate_succ_apply', periodStep_total_contributions, ih]
    push_cast
    ring

theorem totalContribAfter_closed (p : Params) (hfreq : p.compounding_freq ≠ 0) :
    ∀ n, totalContribAfter p n = p.initial_investment + n * yearlyContributions p
  | 0 => by simp [totalContribAfter, runYears, initState]
  | n + 1 => by
    have ih := totalContribAfter_closed p hfreq n
    unfold totalContribAfter at ih ⊢
    rw [runYears_state_succ, iterate_total_contributions, ih]
    have hc : (p.compounding_freq : ℚ) * periodContribution p = yearlyContributions p := by
      unfold periodContribution
      field_simp
    push_cast
    nlinarith [hc]

/-! ### Balance evolution -/

theorem periodStep_balance_le (p : Params) (hc : 0 ≤ periodContribution p)
    (hr : 0 ≤ periodRate p) (ht0 : 0 ≤ taxRate p) (ht1 : taxRate p ≤ 1)
    (s : RunState) (hb : 0 ≤ s.balance_nominal) :
    s.balance_nominal ≤ (periodStep p s).balance_nominal := by
  unfold periodStep
  dsimp only
  nlinarith [mul_nonneg (mul_nonneg (add_nonneg hb hc) hr) (by linarith : 0 ≤ 1 - taxRate p)]

theorem iterate_balance_le (p : Params) (hc : 0 ≤ periodContribution p)
    (hr : 0 ≤ periodRate p) (ht0 : 0 ≤ taxRate p) (ht1 : taxRate p ≤ 1)
    (k : ℕ) (s : RunState) (hb : 0 ≤ s.balance_nominal) :
    s.balance_nominal ≤ ((periodStep p)^[k] s).balance_nominal := by
  induction k with
  | zero => simp
  | succ k ih =>
    rw [Function.iterate_succ_apply']
    exact le_trans ih (periodStep_balance_le p hc hr ht0 ht1 _ (le_trans hb ih))

theorem balanceAfter_mono_succ (p : Params) (hc : 0 ≤ periodContribution p)
    (hr : 0 ≤ periodRate p) (ht0 : 0 ≤ taxRate p) (ht1 : taxRate p ≤ 1)
    (hp0 : 0 ≤ p.initial_investment) (n : ℕ) :
    0 ≤ balanceAfter p n ∧ balanceAfter p n ≤ balanceAfter p (n + 1) := by
  induction n with
  | zero =>
    refine ⟨hp0, ?_⟩
    unfold balanceAfter
    rw [runYears_state_succ]
    exact iterate_balance_le p hc hr ht0 ht1 _ _ hp0
  | succ n ih =>
    have h0 : 0 ≤ balanceAfter p (n + 1) := le_trans ih.1 ih.2
    refine ⟨h0, ?_⟩
    unfold balanceAfter
    rw [runYears_state_succ p (n + 1)]
    exact iterate_balance_le p hc hr ht0 ht1 _ _ h0

/-- With a zero period rate every sub-period only adds the period
contribution to the balance. -/
theorem iterate_balance_zero_rate (p : Params) (hr : periodRate p = 0)
    (k : ℕ) (s : RunState) :
    ((periodStep p)^[k] s).balance_nominal =
      s.balance_nominal + k * periodContribution p := by
  induction k with
  | zero => simp
  | succ k ih =>
    rw [Function.iterate_succ_apply', periodStep_balance_eq, ih, hr]
    push_cast
    ring

theorem balanceAfter_zero_rate (p : Params) (hfreq : p.compounding_freq ≠ 0)
    (hr : periodRate p = 0) :
    ∀ n, balanceAfter p n = p.initial_investment + n * yearlyContributions p
  | 0 => by simp [balanceAfter, runYears, initState]
  | n + 1 => by
    have ih := balanceAfter_zero_rate p hfreq hr n
    unfold balanceAfter at ih ⊢
    rw [runYears_state_succ, iterate_balance_zero_rate p hr, ih]
    have hc : (p.compounding_freq : ℚ) * periodContribution p = yearlyContributions p := by
      unfold periodContribution
      field_simp
    push_cast
    nlinarith [hc]

/-! ### Concrete parameter sets used by the witnesses and counterexamples -/

/-- A parameter set whose only precondition violation is `compounding_freq = 2`. -/
def pFreq2 : Params :=
  { initial_investment := 1000, monthly_contribution := 0, yearly_contribution := 0
    interest_rate := 10, investment_period := 1, compounding_freq := 2
    inflation_rate := 0, tax_rate := 0 }

/-- A parameter set whose only precondition violation is a negative
monthly contribution. -/
def pNegContrib : Params :=
  { initial_investment := 1000, monthly_contribution := -5, yearly_contribution := 0
    interest_rate := 10, investment_period := 1, compounding_freq := 1
    inflation_rate := 0, tax_rate := 0 }

/-- A parameter set whose only precondition violation is `investment_period = 0`. -/
def pYearsZero : Params :=
  { initial_investment := 1000, monthly_contribution := 0, yearly_contribution := 0
    interest_rate := 10, investment_period := 0, compounding_freq := 1
    inflation_rate := 0, tax_rate := 0 }

/-- A parameter set satisfying every spec precondition, with a zero principal. -/
def pPrincipalZero : Params :=
  { initial_investment := 0, monthly_contribution := 100, yearly_contribution := 0
    interest_rate := 10, investment_period := 1, compounding_freq := 12
    inflation_rate := 5, tax_rate := 13 }

/-- A small fully valid parameter set with a nonzero principal, two years. -/
def pW2 : Params :=
  { initial_investment := 1000, monthly_contribution := 10, yearly_contribution := 0
    interest_rate := 10, investment_period := 2, compounding_freq := 1
    inflation_rate := 5, tax_rate := 13 }

def pW3 : Params :=
  { initial_investment := 100, monthly_contribution := 0, yearly_contribution := 50
    interest_rate := 10, investment_period := 1, compounding_freq := 1
    inflation_rate := 0, tax_rate := 0 }

def pW4 : Params :=
  { initial_investment := 100, monthly_contribution := 10, yearly_contribution := 0
    interest_rate := 10, investment_period := 2, compounding_freq := 1
    inflation_rate := 5, tax_rate := 13 }

def pW5 : Params :=
  { initial_investment := 100, monthly_contribution := 0, yearly_contribution := 0
    interest_rate := 10, investment_period := 2, compounding_freq := 1
    inflation_rate := 5, tax_rate := 13 }

def pW6 : Params :=
  { initial_investment := 100, monthly_contribution := 5, yearly_contribution := 0
    interest_rate := 0, investment_period := 2, compounding_freq := 4
    inflation_rate := 5, tax_rate := 0 }

def pW7 : Params :=
  { initial_investment := 200, monthly_contribution := 0, yearly_contribution := 0
    interest_rate := 10, investment_period := 1, compounding_freq := 1
    inflation_rate := 5, tax_rate := 0 }

def pW8 : Params :=
  { initial_investment := 100, monthly_contribution := 0, yearly_contribution := 0
    interest_rate := 10, investment_period := 1, compounding_freq := 1
    inflation_rate := 0, tax_rate := 0 }

def pW10 : Params :=
  { initial_investment := 50, monthly_contribution := 1, yearly_contribution := 2
    interest_rate := 10, investment_period := 2, compounding_freq := 4
    inflation_rate := 5, tax_rate := 13 }

/-! ### The claims -/

/-- Claim C1 counterexample: `pFreq2` has `compounding_freq = 2`, violating
the spec precondition, yet `calculate` computes and returns a result rather
than failing with an `InvalidParameter` error. -/
theorem C1_counterexample :
    ¬ ValidParams pFreq2 ∧ (calculate pFreq2).isOk = true := by
  constructor
  · decide
  · rw [calculate_eq_ok pFreq2 (by decide) (inflBase_ne_zero pFreq2 (by decide))
      (by decide) (by decide)]
    rfl

/-- Claim C1 (amended): the engine performs no parameter validation and has
no `InvalidParameter` error.  A parameter set with `compounding_freq = 2`,
or with a negative contribution, computes and returns a result; a set with
`investment_period = 0` (and nonzero `compounding_freq` and principal)
fails only with the `ZeroDivisionError` raised by `1 / years` inside the
CAGR expression, after the year loop has emitted zero rows. -/
theorem C1_amended :
    (∀ p : Params, p.compounding_freq ≠ 0 → p.initial_investment ≠ 0 →
      p.investment_period = 0 →
      calculate p = Except.error "ZeroDivisionError: 1 / years") ∧
    (calculate pFreq2).isOk = true ∧ (calculate pNegContrib).isOk = true := by
  refine ⟨?_, ?_, ?_⟩
  · intro p hf hp hy
    unfold calculate
    rw [if_neg hf, if_neg (fun h => absurd h.1 (by omega))]
    dsimp only
    rw [if_neg hp, if_pos hy]
  · rw [calculate_eq_ok pFreq2 (by decide) (inflBase_ne_zero pFreq2 (by decide))
      (by decide) (by decide)]
    rfl
  · rw [calculate_eq_ok pNegContrib (by decide)
      (inflBase_ne_zero pNegContrib (by decide)) (by decide) (by decide)]
    rfl

/-- Witness for C1 (amended) at `pYearsZero`. -/
theorem C1_amended_witness :
    calculate pYearsZero = Except.error "ZeroDivisionError: 1 / years" :=
  C1_amended.1 pYearsZero (by decide) (by decide) rfl

/-- Claim C2 counterexample: `pPrincipalZero` satisfies every precondition
the claim lists (`investment_period ≥ 1`, `compounding_freq ∈ \x7b1,4,12\x7d`,
all amounts and rates ≥ 0), yet the engine raises `ZeroDivisionError`
computing the CAGR and returns no row sequence at all. -/
theorem C2_counterexample :
    ValidParams pPrincipalZero ∧
      calculate pPrincipalZero =
        Except.error "ZeroDivisionError: balance_nominal / principal" := by
  constructor
  · decide
  · exact calculate_zero_principal pPrincipalZero (by decide)
      (inflBase_ne_zero pPrincipalZero (by decide)) rfl

/-- Claim C2 (amended): for every parameter set satisfying the spec
preconditions and with a nonzero `initial_investment`, `calculate`
succeeds, the returned row sequence has exactly `investment_period` rows,
and its `Year` fields are exactly `1, 2, ..., investment_period` in order. -/
theorem C2_amended (p : Params) (hv : ValidParams p)
    (hp0 : p.initial_investment ≠ 0) :
    (calculate p).toOption.map (fun r => (r.1.length, r.1.map YearRow.year)) =
      some (p.investment_period, List.range' 1 p.investment_period) := by
  rw [calculate_eq_ok p (validParams_freq_ne_zero p hv)
    (ne_of_gt (validParams_inflBase_pos p hv)) hp0 (by have := hv.1; omega)]
  rw [runYears_rows]
  simp only [Except.toOption, Option.map_some', Option.some.injEq, Prod.mk.injEq]
  constructor
  · simp
  · rw [List.map_map, List.range'_eq_map_range]
    refine List.map_congr_left ?_
    intro i _
    simp [rowSpec, Nat.add_comm]

/-- Witness for C2 (amended) at `pW2`. -/
theorem C2_amended_witness :
    (calculate pW2).toOption.map (fun r => (r.1.length, r.1.map YearRow.year)) =
      some (pW2.investment_period, List.range' 1 pW2.investment_period) :=
  C2_amended pW2 (by decide) (by decide)

/-- Claim C9: for a parameter set satisfying every other precondition but
with `initial_investment = 0`, the engine surfaces the CAGR failure as a
division error (Python's `ZeroDivisionError` from
`balance_nominal / self.principal`): it does not silently emit a numeric
CAGR. -/
theorem C9_cagr_zero_principal (p : Params) (hv : ValidParams p)
    (hp0 : p.initial_investment = 0) :
    calculate p = Except.error "ZeroDivisionError: balance_nominal / principal" := by
  unfold calculate
  rw [if_neg (validParams_freq_ne_zero p hv),
    if_neg (fun h => (ne_of_gt (validParams_inflBase_pos p hv)) h.2)]
  dsimp only
  rw [if_pos hp0]

/-- Witness for C9 at `pPrincipalZero`. -/
theorem C9_witness :
    calculate pPrincipalZero =
      Except.error "ZeroDivisionError: balance_nominal / principal" :=
  C9_cagr_zero_principal pPrincipalZero (by decide) rfl

theorem runYears_get (p : Params) (n i : ℕ) (hi : i < ((runYears p n).2).length) :
    ((runYears p n).2).get ⟨i, hi⟩ = rowSpec p i := by
  rw [List.get_eq_getElem, List.getElem_of_eq (runYears_rows p n) hi,
    List.getElem_map, List.getElem_range]

theorem runYears_length (p : Params) (n : ℕ) : ((runYears p n).2).length = n := by
  rw [runYears_rows]; simp

/-- Claim C3: whenever `calculate` returns a result for a parameter set
satisfying the spec preconditions, the summary's `Total Contributions`
equals the initial investment plus the sum of the emitted `Contributions`
fields (each of which is the per-year total of the per-sub-period
contributions added during that year). -/
theorem C3_total_contributions (p : Params) (rows : List YearRow) (s : Summary)
    (hv : ValidParams p) (h : calculate p = Except.ok (rows, s)) :
    s.total_contributions =
      p.initial_investment + (rows.map YearRow.contributions).sum := by
  obtain ⟨hf, hp0, hy, hrows, hs⟩ := calculate_ok_elim p rows s h
  subst hrows
  subst hs
  show totalContribAfter p p.investment_period = _
  rw [totalContribAfter_closed p hf, runYears_rows, List.map_map]
  have hc : (YearRow.contributions ∘ rowSpec p) = fun _ => yearlyContributions p := rfl
  rw [hc, List.map_const', List.sum_replicate, List.length_range, nsmul_eq_mul]

/-- Witness for C3 at `pW3`. -/
theorem C3_witness :
    (mkSummary pW3 (runYears pW3 pW3.investment_period).1).total_contributions =
      pW3.initial_investment +
        (((runYears pW3 pW3.investment_period).2).map YearRow.contributions).sum :=
  C3_total_contributions pW3 _ _ (by decide)
    (calculate_eq_ok pW3 (by decide) (inflBase_ne_zero pW3 (by decide))
      (by decide) (by decide))

/-- Claim C4: for a parameter set satisfying the spec preconditions whose
tax rate is at most 100 percent (the engine consumes `tax_rate / 100`, so
this is the claim's "fraction in [0,1]"), the emitted `End Balance
(Nominal)` fields are non-decreasing from each year to the next. -/
theorem C4_monotone (p : Params) (rows : List YearRow) (s : Summary)
    (hv : ValidParams p) (htax : p.tax_rate ≤ 100)
    (h : calculate p = Except.ok (rows, s)) (i : ℕ) (hi : i + 1 < rows.length) :
    (rows.get ⟨i, Nat.lt_of_succ_lt hi⟩).end_balance_nominal ≤
      (rows.get ⟨i + 1, hi⟩).end_balance_nominal := by
  obtain ⟨hf, hp0, hy, hrows, hs⟩ := calculate_ok_elim p rows s h
  subst hrows
  rw [runYears_get, runYears_get]
  show balanceAfter p (i + 1) ≤ balanceAfter p (i + 1 + 1)
  have hc : 0 ≤ periodContribution p := by
    unfold periodContribution yearlyContributions
    have h1 := hv.2.2.2.1
    have h2 := hv.2.2.2.2.1
    apply div_nonneg (by linarith) (Nat.cast_nonneg _)
  have hr : 0 ≤ periodRate p := by
    unfold periodRate interestRate
    have h1 := hv.2.2.2.2.2.1
    apply div_nonneg (div_nonneg h1 (by norm_num)) (Nat.cast_nonneg _)
  have ht0 : 0 ≤ taxRate p := by
    unfold taxRate
    have h1 := hv.2.2.2.2.2.2.2
    apply div_nonneg h1 (by norm_num)
  have ht1 : taxRate p ≤ 1 := by
    unfold taxRate
    rw [div_le_one (by norm_num)]
    exact htax
  exact (balanceAfter_mono_succ p hc hr ht0 ht1 hv.2.2.1 (i + 1)).2

/-- Witness for C4 at `pW4`, comparing years 1 and 2. -/
theorem C4_witness :
    (((runYears pW4 pW4.investment_period).2).get ⟨0, by decide⟩).end_balance_nominal ≤
      (((runYears pW4 pW4.investment_period).2).get ⟨1, by decide⟩).end_balance_nominal :=
  C4_monotone pW4 _ _ (by decide) (by decide)
    (calculate_eq_ok pW4 (by decide) (inflBase_ne_zero pW4 (by decide))
      (by decide) (by decide)) 0 (by decide)

/-- Claim C5: for every emitted row, the `Inflation Factor` equals
`(1 + inflation_rate) ^ year` (with the engine's fraction
`inflation_rate / 100`), the real and nominal end balances satisfy
`real * factor = nominal`, and with a positive inflation rate the factor
strictly increases from each year to the next. -/
theorem C5_inflation (p : Params) (rows : List YearRow) (s : Summary)
    (hv : ValidParams p) (h : calculate p = Except.ok (rows, s)) (i : ℕ)
    (hi : i < rows.length) :
    (rows.get ⟨i, hi⟩).inflation_factor =
        (1 + inflationRate p) ^ (rows.get ⟨i, hi⟩).year ∧
      (rows.get ⟨i, hi⟩).end_balance_real * (rows.get ⟨i, hi⟩).inflation_factor =
        (rows.get ⟨i, hi⟩).end_balance_nominal ∧
      (0 < p.inflation_rate → ∀ hi2 : i + 1 < rows.length,
        (rows.get ⟨i, hi⟩).inflation_factor <
          (rows.get ⟨i + 1, hi2⟩).inflation_factor) := by
  obtain ⟨hf, hp0, hy, hrows, hs⟩ := calculate_ok_elim p rows s h
  subst hrows
  refine ⟨?_, ?_, ?_⟩
  · rw [runYears_get]
    rfl
  · rw [runYears_get]
    show balanceAfter p (i + 1) / (1 + inflationRate p) ^ (i + 1) *
        (1 + inflationRate p) ^ (i + 1) = balanceAfter p (i + 1)
    exact div_mul_cancel₀ _
      (pow_ne_zero _ (ne_of_gt (validParams_inflBase_pos p hv)))
  · intro hpos hi2
    rw [runYears_get, runYears_get]
    show (1 + inflationRate p) ^ (i + 1) < (1 + inflationRate p) ^ (i + 1 + 1)
    have hb : 1 < 1 + inflationRate p := by
      have : 0 < inflationRate p := div_pos hpos (by norm_num)
      linarith
    exact pow_lt_pow_right₀ hb (by omega)

/-- Witness for C5 at `pW5` (inflation rate 5 percent), years 1 and 2. -/
theorem C5_witness :
    (((runYears pW5 pW5.investment_period).2).get ⟨0, by decide⟩).inflation_factor <
      (((runYears pW5 pW5.investment_period).2).get ⟨1, by decide⟩).inflation_factor :=
  (C5_inflation pW5 _ _ (by decide)
    (calculate_eq_ok pW5 (by decide) (inflBase_ne_zero pW5 (by decide))
      (by decide) (by decide)) 0 (by decide)).2.2 (by decide) (by decide)

/-- Claim C6: with a zero interest rate and a zero tax rate, every emitted
`End Balance (Nominal)` equals the initial investment plus the sum of the
`Contributions` fields of the rows up to and including that year: pure
accumulation, no growth. -/
theorem C6_zero_rate (p : Params) (rows : List YearRow) (s : Summary)
    (hv : ValidParams p) (hr0 : p.interest_rate = 0) (ht0 : p.tax_rate = 0)
    (h : calculate p = Except.ok (rows, s)) (i : ℕ) (hi : i < rows.length) :
    (rows.get ⟨i, hi⟩).end_balance_nominal =
      p.initial_investment + ((rows.take (i + 1)).map YearRow.contributions).sum := by
  obtain ⟨hf, hp0, hy, hrows, hs⟩ := calculate_ok_elim p rows s h
  subst hrows
  have hin : i < p.investment_period := by
    rw [runYears_length] at hi
    exact hi
  rw [runYears_get]
  have hrate : periodRate p = 0 := by
    unfold periodRate interestRate
    rw [hr0]
    simp
  show balanceAfter p (i + 1) = _
  rw [balanceAfter_zero_rate p hf hrate, runYears_rows, ← List.map_take,
    List.take_range, min_eq_left (by omega : i + 1 ≤ p.investment_period),
    List.map_map]
  have hc : (YearRow.contributions ∘ rowSpec p) = fun _ => yearlyContributions p := rfl
  rw [hc, List.map_const', List.sum_replicate, List.length_range, nsmul_eq_mul]

/-- Witness for C6 at `pW6` (zero interest, zero tax), year 2. -/
theorem C6_witness :
    (((runYears pW6 pW6.investment_period).2).get ⟨1, by decide⟩).end_balance_nominal =
      pW6.initial_investment +
        ((((runYears pW6 pW6.investment_period).2).take 2).map YearRow.contributions).sum :=
  C6_zero_rate pW6 _ _ (by decide) rfl rfl
    (calculate_eq_ok pW6 (by decide) (inflBase_ne_zero pW6 (by decide))
      (by decide) (by decide)) 1 (by decide)

/-- Claim C7: with one year, annual compounding, no contributions, a
10 percent interest rate and a zero tax rate, the single emitted
`End Balance (Nominal)` is exactly `initial_investment * 1.10` (exact in
the rational model, which is what "within floating-point tolerance"
allows). -/
theorem C7_boundary (p : Params) (h1 : p.investment_period = 1)
    (h2 : p.compounding_freq = 1) (h3 : p.monthly_contribution = 0)
    (h4 : p.yearly_contribution = 0) (h5 : p.interest_rate = 10)
    (h6 : p.tax_rate = 0) :
    ((runYears p p.investment_period).2).map YearRow.end_balance_nominal =
      [p.initial_investment * (11 / 10)] := by
  rw [h1, runYears_rows]
  have hr : List.range 1 = [0] := rfl
  rw [hr, List.map_cons, List.map_cons, List.map_nil, List.map_nil]
  congr 1
  show balanceAfter p 1 = p.initial_investment * (11 / 10)
  unfold balanceAfter
  rw [runYears_state_succ, h2, Function.iterate_one, periodStep_balance_eq]
  show p.initial_investment + periodContribution p +
      ((p.initial_investment + periodContribution p) * periodRate p -
        (p.initial_investment + periodContribution p) * periodRate p * taxRate p) = _
  unfold periodContribution periodRate interestRate taxRate yearlyContributions
  rw [h2, h3, h4, h5, h6]
  push_cast
  ring

/-- Witness for C7 at `pW7`. -/
theorem C7_witness :
    ((runYears pW7 pW7.investment_period).2).map YearRow.end_balance_nominal =
      [pW7.initial_investment * (11 / 10)] :=
  C7_boundary pW7 rfl rfl rfl rfl rfl rfl

/-- Modelled from the spec: direct incremental per-year tracking of
interest — the amount attributed to year `y` is the increase of the
running total-interest accumulator during year `y` itself.  This is the
alternative attribution scheme the refinement claim C8 compares with the
code's accumulate-then-diff attribution. -/
def incrementalInterest (p : Params) (y : ℕ) : ℚ :=
  totalInterestAfter p y - totalInterestAfter p (y - 1)

/-- Modelled from the spec: direct incremental per-year tracking of taxes,
analogous to `incrementalInterest`. -/
def incrementalTaxes (p : Params) (y : ℕ) : ℚ :=
  totalTaxesAfter p y - totalTaxesAfter p (y - 1)

/-- Claim C8: the accumulate-then-diff attribution of each emitted row's
`Interest Earned` and `Taxes Paid` coincides with direct incremental
per-year tracking, and the first row's `Interest Earned` equals the
running total-interest after year 1 exactly, its subtraction baseline
being zero. -/
theorem C8_attribution (p : Params) (n i : ℕ)
    (hi : i < ((runYears p n).2).length) :
    ((((runYears p n).2).get ⟨i, hi⟩).interest_earned =
        incrementalInterest p ((((runYears p n).2).get ⟨i, hi⟩).year) ∧
      (((runYears p n).2).get ⟨i, hi⟩).taxes_paid =
        incrementalTaxes p ((((runYears p n).2).get ⟨i, hi⟩).year)) ∧
    ∀ h0 : 0 < ((runYears p n).2).length,
      (((runYears p n).2).get ⟨0, h0⟩).interest_earned = totalInterestAfter p 1 := by
  refine ⟨⟨?_, ?_⟩, ?_⟩
  · rw [runYears_get]
    show totalInterestAfter p (i + 1) - totalInterestAfter p i =
      incrementalInterest p (i + 1)
    unfold incrementalInterest
    norm_num
  · rw [runYears_get]
    show totalTaxesAfter p (i + 1) - totalTaxesAfter p i =
      incrementalTaxes p (i + 1)
    unfold incrementalTaxes
    norm_num
  · intro h0
    rw [runYears_get]
    show totalInterestAfter p 1 - totalInterestAfter p 0 = totalInterestAfter p 1
    rw [totalInterestAfter_zero]
    ring

/-- Witness for C8 at `pW8`, first row. -/
theorem C8_witness :
    (((runYears pW8 1).2).get ⟨0, by decide⟩).interest_earned =
      incrementalInterest pW8 ((((runYears pW8 1).2).get ⟨0, by decide⟩).year) :=
  (C8_attribution pW8 1 0 (by decide)).1.1

/-- Claim C10: for every returned row sequence, the first row's
`Start Balance` is the initial investment, and every later row's
`Start Balance` is the previous row's `End Balance (Nominal)`. -/
theorem C10_chaining (p : Params) (rows : List YearRow) (s : Summary)
    (hv : ValidParams p) (h : calculate p = Except.ok (rows, s)) :
    (∀ h0 : 0 < rows.length,
      (rows.get ⟨0, h0⟩).start_balance = p.initial_investment) ∧
    ∀ i (hi : i + 1 < rows.length),
      (rows.get ⟨i + 1, hi⟩).start_balance =
        (rows.get ⟨i, Nat.lt_of_succ_lt hi⟩).end_balance_nominal := by
  obtain ⟨hf, hp0, hy, hrows, hs⟩ := calculate_ok_elim p rows s h
  subst hrows
  constructor
  · intro h0
    rw [runYears_get]
    rfl
  · intro i hi
    rw [runYears_get, runYears_get]
    rfl

/-- Witness for C10 at `pW10`, rows 1 and 2. -/
theorem C10_witness :
    (((runYears pW10 pW10.investment_period).2).get ⟨1, by decide⟩).start_balance =
      (((runYears pW10 pW10.investment_period).2).get ⟨0, by decide⟩).end_balance_nominal :=
  (C10_chaining pW10 _ _ (by decide)
    (calculate_eq_ok pW10 (by decide) (inflBase_ne_zero pW10 (by decide))
      (by decide) (by decide))).2 0 (by decide)

end SmartCalculator
